import Mathlib

/-!
Verification of the CONV32 / SITRAD serial scanner (`src/CONV32.py`).

The development shallowly embeds the protocol and control logic of
`CONV32Reader`: command framing (`create_command`), response parsing
(`parse_response`), the byte-accumulation read loop and length gate of
`read_device`, the per-address retry loop and configuration loop of
`scan_devices`, and the error-counting loop of `monitor_temperatures`.
I/O is made explicit: byte availability on the serial port is a list of
poll events, the wall-clock timeout is a fuel bound (one unit per loop
iteration, matching the unconditional `time.sleep(0.05)`), and probes and
connection attempts are oracle functions.
-/

namespace CONV32

/-- Serial parity setting (the pyserial constants used by the script). -/
inductive Parity
  | noParity
  | even
  | odd
deriving DecidableEq

/-- A pyserial configuration dictionary as built in `CONV32Reader.__init__`
(`baudrate`, `bytesize`, `parity`, `stopbits`, `timeout`). -/
structure SerialConfig where
  baudrate : Nat
  bytesize : Nat
  parity : Parity
  stopbits : Nat
  timeout : Nat
deriving DecidableEq

/-- The single configuration assigned to `self.serial_config` in `__init__`:
9600 baud, 8 data bits, no parity, one stop bit, timeout 1. -/
def sitrad_config : SerialConfig :=
  { baudrate := 9600, bytesize := 8, parity := .noParity, stopbits := 1, timeout := 1 }

/-- Outcome of `CONV32Reader.parse_response`.  The Python function returns
either the temperature or `None`; the constructors record which of its
distinct return paths produced the result (frame-marker check at line 171,
status check at line 175, checksum check at line 186, or an IndexError
swallowed by the `except` handler). -/
inductive ParseResult
  | reading (t : ℚ)
  | malformedFrame
  | deviceStatusError (status : Nat)
  | checksumError
  | indexError
deriving DecidableEq

/-- Embedding of `CONV32Reader.parse_response` (lines 160-194).  Byte indexing
follows Python evaluation order: `response[0]` is read first (empty list →
IndexError), the `or` short-circuits, `response[2]` needs length ≥ 3 and
`response[3]` needs length ≥ 4 (otherwise IndexError → `None`);
`response[-1]`/`response[-2]` are the last and second-to-last bytes. -/
def parse_response (response : List Nat) : ParseResult :=
  if response.length = 0 then .indexError
  else if response.headD 0 ≠ 0x02 ∨ response.getLastD 0 ≠ 0x03 then .malformedFrame
  else if response.length < 3 then .indexError
  else if response.getD 2 0 ≠ 0 then .deviceStatusError (response.getD 2 0)
  else if response.length < 4 then .indexError
  else if response.getD (response.length - 2) 0 ≠
      (response.getD 1 0) ^^^ (response.getD 2 0) ^^^ (response.getD 3 0) then .checksumError
  else .reading ((response.getD 3 0 : ℚ) / 10)

/-- Embedding of `CONV32Reader.create_command` (lines 135-158):
`bytes([0x02, address, 0x72, address ^ 0x72])`.  `bytes(...)` raises unless
every element fits in a byte (the surrounding `except` turns that into a
`DeviceError`), hence the range guard. -/
def create_command (address : Nat) : Option (List Nat) :=
  let cmd := 0x72
  let checksum := address ^^^ cmd
  if address ≤ 255 ∧ checksum ≤ 255 then
    some [0x02, address, cmd, checksum]
  else none

/-- The decode step of `CONV32Reader.read_device` (lines 126-129): responses
of length ≥ 5 are handed to `parse_response`, anything shorter yields `None`;
a non-`reading` parse outcome is also `None`. -/
def decode_framed (response : List Nat) : Option ℚ :=
  if 5 ≤ response.length then
    match parse_response response with
    | .reading t => some t
    | _ => none
  else none

/-- Embedding of the byte-accumulation loop of `read_device` (lines 111-121).
`events` is the poll schedule: `some b` means one byte is available at that
iteration, `none` means `in_waiting` is false.  `fuel` is the wall-clock
budget in loop iterations — every iteration ends with `time.sleep(0.05)`, so
each event consumes one unit.  The loop breaks (flag `true`) exactly when the
byte just appended is the ETX marker 0x03; running out of fuel or of events
returns the partial accumulator with flag `false`. -/
def read_response (fuel : Nat) (events : List (Option Nat)) (acc : List Nat) :
    List Nat × Bool :=
  match fuel, events with
  | 0, _ => (acc, false)
  | _ + 1, [] => (acc, false)
  | fuel + 1, some b :: rest =>
      if b = 0x03 then (acc ++ [b], true)
      else read_response fuel rest (acc ++ [b])
  | fuel + 1, none :: rest => read_response fuel rest acc

/-- An I/O operation performed on the serial handle by `read_device`. -/
inductive IOEvent
  | resetBuf
  | write (bs : List Nat)
  | readByte (b : Nat)
deriving DecidableEq

/-- Embedding of `CONV32Reader.read_device` (lines 92-133) with an explicit
I/O trace.  `verify_connection` raises unless connected; an address outside
1..32 raises `ValueError`; both are swallowed by the outer handler, which
returns `None` — in those cases no I/O has happened.  Otherwise the input
buffer is cleared, the command written, the response accumulated and decoded
through the length-5 gate. -/
def read_device (connected : Bool) (address : Nat) (fuel : Nat)
    (events : List (Option Nat)) : Option ℚ × List IOEvent :=
  if connected = false then (none, [])
  else if ¬(1 ≤ address ∧ address ≤ 32) then (none, [])
  else
    match create_command address with
    | none => (none, [.resetBuf])
    | some comando =>
        let response := (read_response fuel events []).1
        (decode_framed response, [.resetBuf, .write comando] ++ response.map .readByte)

/-- Outcome of one probe attempt at an address inside `scan_devices`:
`read_device` returned a temperature, returned `None`, or the attempt body
raised (swallowed by the inner `except`). -/
inductive ProbeOutcome
  | found (t : ℚ)
  | noReading
  | exc
deriving DecidableEq

/-- The retry loop `for intento in range(retry_count)` of `scan_devices`
(lines 285-299), started at attempt index `used` with `n` attempts left:
returns whether a probe succeeded and how many probes were issued.  The loop
breaks at the first successful reading; `noReading` and exceptions just move
to the next attempt. -/
def try_address_from (probe : Nat → ProbeOutcome) : Nat → Nat → Bool × Nat
  | 0, used => (false, used)
  | n + 1, used =>
      match probe used with
      | .found _ => (true, used + 1)
      | _ => try_address_from probe n (used + 1)

/-- All `retry_count` attempts at one address, from attempt 0. -/
def try_address (probe : Nat → ProbeOutcome) (retry_count : Nat) : Bool × Nat :=
  try_address_from probe retry_count 0

/-- The address loop `for addr in range(1, 33)` of `scan_devices`
(lines 281-299) under one serial configuration: each address is tried in
ascending order and appended to the inventory exactly when one of its probes
succeeded.  `probe addr i` is the outcome of attempt `i` at address `addr`. -/
def scan_addresses (probe : Nat → Nat → ProbeOutcome) (retry_count : Nat)
    (config : SerialConfig) : List (Nat × SerialConfig) :=
  (List.range' 1 32).filterMap fun addr =>
    if (try_address (probe addr) retry_count).1 then some (addr, config) else none

/-- The attribute state of a `CONV32Reader` object: the fields assigned by
`__init__` (lines 21-33), plus `serial_configs`, which `scan_devices`
reads (line 269) — `none` models the attribute being absent. -/
structure CONV32Reader where
  port : String
  serial_config : SerialConfig
  ser : Option SerialConfig
  test_mode : Bool
  serial_configs : Option (List SerialConfig)
deriving DecidableEq

/-- `CONV32Reader.__init__`: sets `port`, the fixed SITRAD `serial_config`,
`ser = None`, `test_mode = False`.  No statement of the class ever assigns
`serial_configs`, so the attribute is absent on every constructed object. -/
def CONV32Reader.init (port : String) : CONV32Reader :=
  { port := port
    serial_config := sitrad_config
    ser := none
    test_mode := false
    serial_configs := none }

/-- A Python exception escaping a method. -/
inductive PyErr
  | attributeError (name : String)
deriving DecidableEq

/-- Embedding of `CONV32Reader.scan_devices` (lines 263-306).  The `for`
statement first looks up `self.serial_configs`; a missing attribute raises
`AttributeError` (this lookup is outside every `try` of the method).  With a
configuration list present, each configuration is tried in order: a failed
`connect()` is swallowed by `except ... continue`, a successful one runs the
address scan, and the per-configuration inventories are accumulated — the
loop never exits early. -/
def scan_devices (self : CONV32Reader) (connectOk : SerialConfig → Bool)
    (probe : SerialConfig → Nat → Nat → ProbeOutcome) (retry_count : Nat) :
    Except PyErr (List (Nat × SerialConfig)) :=
  match self.serial_configs with
  | none => .error (.attributeError "serial_configs")
  | some configs =>
      .ok (configs.foldl
        (fun acc config =>
          if connectOk config then acc ++ scan_addresses (probe config) retry_count config
          else acc) [])

/-- `max_errors` constant of `monitor_temperatures` (line 315). -/
def max_errors : Nat := 3

/-- The fixed reconnect backoff of `monitor_temperatures`, seconds
(`time.sleep(5)`, line 342). -/
def reconnect_wait : Nat := 5

/-- Environment outcome of one iteration of the monitoring loop: either
`verify_connection` succeeded and every device was polled (one optional
reading per device — per-device exceptions are swallowed), or a
`ConnectionError` was raised. -/
inductive CycleOutcome
  | poll (readings : List (Option ℚ))
  | connFail
deriving DecidableEq

/-- Observable action taken by one iteration of the monitoring loop. -/
inductive MonAction
  | pollCycle
  | reconnect (waitSeconds : Nat)
  | fatalStop
deriving DecidableEq

/-- Embedding of the `while True` loop of `CONV32Reader.monitor_temperatures`
(lines 308-349), run over a finite script of cycle outcomes from error count
`errors_count`.  A polled cycle resets the counter to 0 exactly when some
reading succeeded (line 328).  A `ConnectionError` increments the counter;
once it reaches `max_errors` the loop re-raises ("Demasiados errores
consecutivos", line 340) and the run ends fatally — otherwise it sleeps
`reconnect_wait` seconds, reconnects (line 343), and keeps going.  Returns
the action trace and whether the run terminated fatally. -/
def monitor_temperatures : Nat → List CycleOutcome → List MonAction × Bool
  | _, [] => ([], false)
  | errors_count, .poll readings :: rest =>
      let ec := if readings.any (·.isSome) then 0 else errors_count
      (.pollCycle :: (monitor_temperatures ec rest).1, (monitor_temperatures ec rest).2)
  | errors_count, .connFail :: rest =>
      if max_errors ≤ errors_count + 1 then ([.fatalStop], true)
      else (.reconnect reconnect_wait :: (monitor_temperatures (errors_count + 1) rest).1,
            (monitor_temperatures (errors_count + 1) rest).2)

end CONV32

namespace CONV32

/-! ## Helper lemmas -/

/-- For any address that fits in a byte, `create_command` succeeds and yields
the literal SITRAD frame. -/
theorem create_command_eq (address : Nat) (h : address ≤ 255) :
    create_command address = some [0x02, address, 0x72, address ^^^ 0x72] := by
  have hx : address ^^^ 0x72 < 2 ^ 8 :=
    Nat.xor_lt_two_pow (by norm_num; omega) (by norm_num)
  have hx' : address ^^^ 0x72 ≤ 255 := by norm_num at hx; omega
  simp [create_command, h, hx']

/-- The retry loop issues at most the number of remaining attempts. -/
theorem try_address_from_le (probe : Nat → ProbeOutcome) :
    ∀ n used, (try_address_from probe n used).2 ≤ used + n := by
  intro n
  induction n with
  | zero => intro used; simp [try_address_from]
  | succ n ih =>
      intro used
      unfold try_address_from
      cases hp : probe used with
      | found t => simp
      | noReading => have := ih (used + 1); simp; omega
      | exc => have := ih (used + 1); simp; omega

/-- The retry loop stops at the first successful probe, having issued exactly
`i + 1` probes when attempt `i` is the first success. -/
theorem try_address_from_first_success (probe : Nat → ProbeOutcome) :
    ∀ n used i t, i < n → probe (used + i) = .found t →
      (∀ j, j < i → ∀ u, probe (used + j) ≠ .found u) →
      try_address_from probe n used = (true, used + i + 1) := by
  intro n
  induction n with
  | zero => intro used i t hi; omega
  | succ n ih =>
      intro used i t hi hp hprev
      cases i with
      | zero =>
          simp only [Nat.add_zero] at hp
          unfold try_address_from
          rw [hp]
      | succ i =>
          have h0 : probe used = .noReading ∨ probe used = .exc := by
            cases hp0 : probe used with
            | found u => exact absurd hp0 (by simpa using hprev 0 (by omega) u)
            | noReading => exact Or.inl rfl
            | exc => exact Or.inr rfl
          have hrec : try_address_from probe n (used + 1) = (true, used + 1 + i + 1) := by
            refine ih (used + 1) i t (by omega) ?_ ?_
            · have : used + 1 + i = used + (i + 1) := by omega
              rw [this]; exact hp
            · intro j hj u
              have : used + 1 + j = used + (j + 1) := by omega
              rw [this]; exact hprev (j + 1) (by omega) u
          unfold try_address_from
          rcases h0 with h0 | h0 <;> rw [h0] <;>
            simpa [show used + 1 + i + 1 = used + (i + 1) + 1 by omega] using hrec

/-- The device addresses recorded by the address scan, in order. -/
theorem scan_addresses_map_fst (probe : Nat → Nat → ProbeOutcome) (retry_count : Nat)
    (config : SerialConfig) :
    (scan_addresses probe retry_count config).map Prod.fst =
      (List.range' 1 32).filter fun addr => (try_address (probe addr) retry_count).1 := by
  unfold scan_addresses
  generalize List.range' 1 32 = l
  induction l with
  | nil => simp
  | cons a l ih =>
      cases h : (try_address (probe a) retry_count).1 <;>
        simp [List.filterMap_cons, List.filter_cons, h, ih]

/-- Membership in the scan inventory is decided by the address's own probes. -/
theorem mem_scan_addresses (probe : Nat → Nat → ProbeOutcome) (retry_count : Nat)
    (config : SerialConfig) (addr : Nat) :
    (addr, config) ∈ scan_addresses probe retry_count config ↔
      (1 ≤ addr ∧ addr ≤ 32) ∧ (try_address (probe addr) retry_count).1 = true := by
  unfold scan_addresses
  simp only [List.mem_filterMap]
  constructor
  · rintro ⟨a, ha, hif⟩
    by_cases h : (try_address (probe a) retry_count).1 = true
    · rw [if_pos h] at hif
      obtain ⟨rfl, -⟩ := Prod.mk.injEq .. ▸ Option.some.injEq .. ▸ hif
      rw [List.mem_range'_1] at ha
      exact ⟨⟨ha.1, by omega⟩, h⟩
    · rw [if_neg h] at hif; cases hif
  · rintro ⟨⟨h1, h32⟩, hs⟩
    refine ⟨addr, ?_, by rw [if_pos hs]⟩
    rw [List.mem_range'_1]; omega

end CONV32

namespace CONV32

/-! ## Claim theorems -/

/-- C1: `scan_devices` is specified to close any existing transport, open a
transport for each candidate configuration in order, run the address scan and
return the accumulated records — but the `for` loop reads
`self.serial_configs`, an attribute no statement of the class ever assigns,
so for every reader produced by `__init__` (and any probe/connect behaviour
and retry count) the call raises `AttributeError` before touching the port. -/
theorem scan_devices_attribute_error (port : String) (connectOk : SerialConfig → Bool)
    (probe : SerialConfig → Nat → Nat → ProbeOutcome) (retry_count : Nat) :
    scan_devices (CONV32Reader.init port) connectOk probe retry_count =
      .error (.attributeError "serial_configs") := rfl

/-- C3: for every device address that fits in a byte, `create_command`
produces exactly the four-byte frame `[0x02, address, 0x72, address ^ 0x72]`;
in particular `create_command 5` is the bytes `02 05 72 77`. -/
theorem create_command_frame :
    (∀ address : Nat, address ≤ 255 →
      create_command address = some [0x02, address, 0x72, address ^^^ 0x72])
    ∧ create_command 5 = some [0x02, 0x05, 0x72, 0x77] := by
  refine ⟨create_command_eq, ?_⟩
  decide

/-- Witness for C3 at address 5. -/
theorem create_command_frame_witness :
    create_command 5 = some [0x02, 0x05, 0x72, 0x05 ^^^ 0x72] :=
  create_command_frame.1 5 (by decide)

/-- C2: for every response that passes the STX/ETX and status checks (and is
long enough for those checks to be evaluated at all), `parse_response`
returns a reading exactly when the second-to-last byte equals
`address ^ status ^ temperature`, and returns the checksum-error outcome
otherwise; on the Scenario A bytes `02 05 00 0F 1A 03` the XOR is
`05 ^ 00 ^ 0F = 0A ≠ 1A`, so the outcome is the checksum error. -/
theorem parse_response_checksum_policy :
    (∀ response : List Nat, 4 ≤ response.length →
      response.headD 0 = 0x02 → response.getLastD 0 = 0x03 → response.getD 2 0 = 0 →
      ((∃ t, parse_response response = .reading t) ↔
        response.getD (response.length - 2) 0 =
          (response.getD 1 0) ^^^ (response.getD 2 0) ^^^ (response.getD 3 0))
      ∧ (response.getD (response.length - 2) 0 ≠
          (response.getD 1 0) ^^^ (response.getD 2 0) ^^^ (response.getD 3 0) →
          parse_response response = .checksumError))
    ∧ parse_response [0x02, 0x05, 0x00, 0x0F, 0x1A, 0x03] = .checksumError := by
  constructor
  · intro r hlen h0 hlast h2
    have l0 : ¬ r.length = 0 := by omega
    have l3 : ¬ r.length < 3 := by omega
    have l4 : ¬ r.length < 4 := by omega
    have key : parse_response r =
        if r.getD (r.length - 2) 0 ≠
            (r.getD 1 0) ^^^ (r.getD 2 0) ^^^ (r.getD 3 0) then .checksumError
        else .reading ((r.getD 3 0 : ℚ) / 10) := by
      unfold parse_response
      rw [if_neg l0, if_neg (by push_neg; exact ⟨h0, hlast⟩), if_neg l3,
        if_neg (not_not_intro h2), if_neg l4]
    refine ⟨⟨?_, ?_⟩, ?_⟩
    · rintro ⟨t, ht⟩
      by_contra hc
      rw [key, if_pos hc] at ht
      cases ht
    · intro hc
      rw [key, if_neg (not_not_intro hc)]
      exact ⟨_, rfl⟩
    · intro hc
      rw [key, if_pos hc]
  · decide

/-- Witness for C2: the corrected Scenario A bytes `02 05 00 0F 0A 03`, whose
checksum byte equals `05 ^ 00 ^ 0F`, are accepted with a reading. -/
theorem parse_response_checksum_policy_witness :
    ∃ t, parse_response [0x02, 0x05, 0x00, 0x0F, 0x0A, 0x03] = .reading t :=
  ((parse_response_checksum_policy.1 [0x02, 0x05, 0x00, 0x0F, 0x0A, 0x03]
    (by decide) (by decide) (by decide) (by decide)).1).mpr (by decide)

/-- C8: on any response whose first byte is STX, whose last byte is ETX and
whose third byte (status) is non-zero, `parse_response` reports the device
status error carrying that status byte — unconditionally in the checksum
byte, because the status check precedes the checksum check. -/
theorem parse_response_status_precedence (response : List Nat)
    (hlen : 3 ≤ response.length) (h0 : response.headD 0 = 0x02)
    (hlast : response.getLastD 0 = 0x03) (hs : response.getD 2 0 ≠ 0) :
    parse_response response = .deviceStatusError (response.getD 2 0) := by
  have l0 : ¬ response.length = 0 := by omega
  have l3 : ¬ response.length < 3 := by omega
  unfold parse_response
  rw [if_neg l0, if_neg (by push_neg; exact ⟨h0, hlast⟩), if_neg l3, if_pos hs]

/-- Witness for C8: status byte 1 with a checksum byte that is actually valid
(`05 ^ 01 ^ 0F = 0B`) still yields the status error. -/
theorem parse_response_status_precedence_witness :
    parse_response [0x02, 0x05, 0x01, 0x0F, 0x0B, 0x03] = .deviceStatusError 1 :=
  parse_response_status_precedence [0x02, 0x05, 0x01, 0x0F, 0x0B, 0x03]
    (by decide) (by decide) (by decide) (by decide)

end CONV32

namespace CONV32

/-- C4 counterexample: the claimed minimum length is 6, but `read_device`
gates responses at `len(response) >= 5`, and the five-byte frame
`02 00 00 0F 03` — shorter than 6 — is not rejected: its second-to-last byte
is also its temperature byte, the recomputed XOR `00 ^ 00 ^ 0F` matches it,
and the decode returns the reading 1.5 °C. -/
theorem decode_framed_length5_reading :
    [0x02, 0x00, 0x00, 0x0F, 0x03].length < 6 ∧
    decode_framed [0x02, 0x00, 0x00, 0x0F, 0x03] = some ((15 : ℚ) / 10) := by
  refine ⟨by decide, ?_⟩
  norm_num [decode_framed, parse_response]

/-- C4 amended: the framed decode rejects (returns no reading) whenever the
accumulated response is shorter than 5 bytes, or its first byte is not STX
0x02, or its last byte is not ETX 0x03; the threshold is 5, not 6, so a
five-byte frame reaches the parser and can be accepted. -/
theorem decode_framed_reject (response : List Nat)
    (h : response.length < 5 ∨ response.headD 0 ≠ 0x02 ∨ response.getLastD 0 ≠ 0x03) :
    decode_framed response = none := by
  by_cases hl : 5 ≤ response.length
  · have l0 : ¬ response.length = 0 := by omega
    have hm : response.headD 0 ≠ 0x02 ∨ response.getLastD 0 ≠ 0x03 := by
      rcases h with h | h
      · omega
      · exact h
    have hp : parse_response response = .malformedFrame := by
      unfold parse_response
      rw [if_neg l0, if_pos hm]
    unfold decode_framed
    rw [if_pos hl, hp]
  · unfold decode_framed
    rw [if_neg hl]

/-- Witness for C4 amended: a four-byte response is rejected. -/
theorem decode_framed_reject_witness :
    decode_framed [0x02, 0x05, 0x00, 0x03] = none :=
  decode_framed_reject [0x02, 0x05, 0x00, 0x03] (Or.inl (by decide))

/-- C10: every reading the framed parse returns from a byte sequence (all
elements fitting in a byte) is non-negative and at most 25.5 °C — the
temperature is the unsigned temperature byte divided by 10, with no sign
handling — and therefore automatically lies inside −50..105 °C. -/
theorem parse_response_reading_bounds (response : List Nat)
    (hb : ∀ b ∈ response, b ≤ 255) (t : ℚ)
    (ht : parse_response response = .reading t) :
    (0 ≤ t ∧ t ≤ 51 / 2) ∧ (-50 ≤ t ∧ t ≤ 105) := by
  have hform : 4 ≤ response.length ∧ t = (response.getD 3 0 : ℚ) / 10 := by
    unfold parse_response at ht
    split_ifs at ht with h1 h2 h3 h4 h5 h6
    injection ht with h
    exact ⟨by omega, h.symm⟩
  obtain ⟨hlen, rfl⟩ := hform
  have hmem : response.getD 3 0 ∈ response := by
    rw [List.getD_eq_getElem response 0 (by omega)]
    exact List.getElem_mem (by omega)
  have h255 : (response.getD 3 0 : ℚ) ≤ 255 := by
    exact_mod_cast hb _ hmem
  have hdiv : (response.getD 3 0 : ℚ) / 10 ≤ 255 / 10 := by gcongr
  have hnn : (0 : ℚ) ≤ (response.getD 3 0 : ℚ) / 10 := by positivity
  exact ⟨⟨hnn, by linarith⟩, ⟨by linarith, by linarith⟩⟩
end CONV32

namespace CONV32

/-- Witness for C10 on the frame `02 05 00 0F 0A 03`, which parses to 1.5 °C. -/
theorem parse_response_reading_bounds_witness :
    (0 ≤ (3 / 2 : ℚ) ∧ (3 / 2 : ℚ) ≤ 51 / 2) ∧ (-50 ≤ (3 / 2 : ℚ) ∧ (3 / 2 : ℚ) ≤ 105) :=
  parse_response_reading_bounds [0x02, 0x05, 0x00, 0x0F, 0x0A, 0x03] (by decide) (3 / 2)
    (by norm_num [parse_response]
        intro h
        exact absurd (by decide) h)

/-- C9: a read at an address outside 1..32 is rejected before any I/O — the
result is no reading and the I/O trace is empty: the buffer is never cleared,
no command bytes are written and no response bytes are read, whatever the
connection state, the timeout budget and the bytes the port would offer. -/
theorem read_device_invalid_address (connected : Bool) (address fuel : Nat)
    (events : List (Option Nat)) (h : address < 1 ∨ 32 < address) :
    read_device connected address fuel events = (none, []) := by
  unfold read_device
  by_cases hc : connected = false
  · rw [if_pos hc]
  · rw [if_neg hc, if_pos (by omega)]

/-- Witness for C9 at address 33 with bytes waiting on the port. -/
theorem read_device_invalid_address_witness :
    read_device true 33 20 [some 0x02, some 0x03] = (none, []) :=
  read_device_invalid_address true 33 20 [some 0x02, some 0x03] (Or.inr (by decide))

end CONV32

namespace CONV32

/-- C5 counterexample: with fuel for 20 iterations and seven available bytes
none of which is 0x03, the loop does not stop once the accumulator reaches
the six-byte minimum frame length — it appends all seven bytes and ends
without success (timeout path), contradicting termination condition (b) of
the claim. -/
theorem read_response_no_minlength_stop :
    read_response 20 [some 0x02, some 0x05, some 0x00, some 0x0F, some 0x1A,
        some 0x01, some 0x01] [] =
      ([0x02, 0x05, 0x00, 0x0F, 0x1A, 0x01, 0x01], false) ∧
    ¬ read_response 20 [some 0x02, some 0x05, some 0x00, some 0x0F, some 0x1A,
        some 0x01, some 0x01] [] =
      ([0x02, 0x05, 0x00, 0x0F, 0x1A, 0x01], true) := by
  decide

/-- C5 amended: the read loop appends newly available bytes one at a time and
terminates successfully exactly when the byte just appended is the terminator
0x03 (its only successful exit); when the timeout budget or the byte stream
runs out first, it returns whatever partial bytes were collected, with no
success flag and without raising.  There is no minimum-length termination.
In addition, `read_device` clears the input buffer before any write or read. -/
theorem read_response_terminator :
    (∀ (fuel : Nat) (events : List (Option Nat)) (acc : List Nat), ∃ ext,
      (read_response fuel events acc).1 = acc ++ ext ∧
      ((read_response fuel events acc).2 = true ↔ ext.getLast? = some 0x03) ∧
      ((read_response fuel events acc).2 = false → ∀ b ∈ ext, b ≠ 0x03))
    ∧ (∀ (address fuel : Nat) (events : List (Option Nat)),
        1 ≤ address → address ≤ 32 →
        (read_device true address fuel events).2.head? = some .resetBuf) := by
  constructor
  · intro fuel
    induction fuel with
    | zero =>
        intro events acc
        exact ⟨[], by simp [read_response]⟩
    | succ fuel ih =>
        intro events acc
        cases events with
        | nil => exact ⟨[], by simp [read_response]⟩
        | cons e rest =>
            cases e with
            | none =>
                obtain ⟨ext, h1, h2, h3⟩ := ih rest acc
                exact ⟨ext, by simpa [read_response] using ⟨h1, h2, h3⟩⟩
            | some b =>
                by_cases hb : b = 0x03
                · subst hb
                  exact ⟨[0x03], by simp [read_response]⟩
                · obtain ⟨ext, h1, h2, h3⟩ := ih rest (acc ++ [b])
                  refine ⟨b :: ext, ?_, ?_, ?_⟩
                  · simp only [read_response, if_neg hb]
                    rw [h1, List.append_assoc, List.singleton_append]
                  · simp only [read_response, if_neg hb]
                    rw [h2]
                    cases ext with
                    | nil => simp [hb]
                    | cons c cs => rw [List.getLast?_cons_cons]
                  · simp only [read_response, if_neg hb]
                    intro hf b' hb'
                    rcases List.mem_cons.mp hb' with rfl | hmem
                    · exact hb
                    · exact h3 hf b' hmem
  · intro address fuel events h1 h32
    unfold read_device
    rw [if_neg (by simp), if_neg (not_not_intro ⟨h1, h32⟩),
      create_command_eq address (by omega)]
    rfl

/-- Witness for C5 amended: the buffer-clearing conjunct at address 5. -/
theorem read_response_terminator_witness :
    (read_device true 5 2 [some 0x02]).2.head? = some IOEvent.resetBuf :=
  read_response_terminator.2 5 2 [some 0x02] (by decide) (by decide)

end CONV32

namespace CONV32

/-- C6 counterexample: starting with a zero error count, three consecutive
connection failures do not trigger "exactly one reconnect cycle and then
resumed polling" — the loop reconnects after the first and the second
failure (two reconnect cycles), and the third failure re-raises, terminating
the monitor fatally; the polling cycle scripted after the failures is never
executed. -/
theorem monitor_three_failures_fatal :
    monitor_temperatures 0 [.connFail, .connFail, .connFail, .poll [some 7]] =
      ([.reconnect 5, .reconnect 5, .fatalStop], true) ∧
    (monitor_temperatures 0 [.connFail, .connFail, .connFail,
        .poll [some 7]]).1.count (.reconnect 5) = 2 ∧
    MonAction.pollCycle ∉
      (monitor_temperatures 0 [.connFail, .connFail, .connFail, .poll [some 7]]).1 := by
  refine ⟨rfl, rfl, ?_⟩
  decide

/-- C6 amended: the consecutive-error counter is incremented on each
connection failure and reset by any successful reading.  While the counter is
below `max_errors` (3) the monitor performs a reconnect cycle — the fixed
5-second wait followed by reopening the transport — after each failure and
resumes; the failure that brings the counter to 3 instead terminates the
monitor with an error, so three consecutive failures from a clean state
produce exactly two reconnect cycles followed by a fatal stop, with nothing
further polled. -/
theorem monitor_reconnect_policy :
    (∀ rest : List CycleOutcome,
      monitor_temperatures 0 ([.connFail, .connFail, .connFail] ++ rest) =
        ([.reconnect reconnect_wait, .reconnect reconnect_wait, .fatalStop], true))
    ∧ (∀ (errors_count : Nat) (rest : List CycleOutcome),
        errors_count + 1 < max_errors →
        monitor_temperatures errors_count (.connFail :: rest) =
          (.reconnect reconnect_wait :: (monitor_temperatures (errors_count + 1) rest).1,
            (monitor_temperatures (errors_count + 1) rest).2))
    ∧ (∀ (errors_count : Nat) (rest : List CycleOutcome) (readings : List (Option ℚ)),
        readings.any (·.isSome) = true →
        monitor_temperatures errors_count (.poll readings :: rest) =
          (.pollCycle :: (monitor_temperatures 0 rest).1,
            (monitor_temperatures 0 rest).2)) := by
  refine ⟨fun rest => rfl, ?_, ?_⟩
  · intro ec rest h
    have hlt : ¬ max_errors ≤ ec + 1 := by omega
    simp only [monitor_temperatures]
    rw [if_neg hlt]
  · intro ec rest readings h
    simp only [monitor_temperatures]
    simp [h]

/-- Witness for C6 amended: a single connection failure from a clean state
performs one reconnect cycle and the run does not end fatally. -/
theorem monitor_reconnect_policy_witness :
    monitor_temperatures 0 [CycleOutcome.connFail] =
      ([.reconnect reconnect_wait], false) := by
  have h := monitor_reconnect_policy.2.1 0 [] (by decide)
  simpa [monitor_temperatures] using h

/-- C7: under one serial configuration, the address scan issues at most
`retry_count` probes per address; the first successful probe ends that
address's retry loop immediately with exactly that many probes issued; the
recorded addresses are strictly ascending; and an address is recorded exactly
when it lies in 1..32 and one of its own probes succeeded — the outcomes at
other addresses (including exceptions and exhausted retries) never remove it
or abort the scan. -/
theorem scan_retry_policy (probe : Nat → Nat → ProbeOutcome) (retry_count : Nat)
    (config : SerialConfig) :
    (∀ addr, (try_address (probe addr) retry_count).2 ≤ retry_count)
    ∧ (∀ addr i t, i < retry_count → probe addr i = .found t →
        (∀ j, j < i → ∀ u, probe addr j ≠ .found u) →
        try_address (probe addr) retry_count = (true, i + 1))
    ∧ ((scan_addresses probe retry_count config).map Prod.fst).Sorted (· < ·)
    ∧ (∀ addr, (addr, config) ∈ scan_addresses probe retry_count config ↔
        ((1 ≤ addr ∧ addr ≤ 32) ∧ (try_address (probe addr) retry_count).1 = true))
    ∧ (∀ (probe' : Nat → Nat → ProbeOutcome) (addr : Nat), probe addr = probe' addr →
        ((addr, config) ∈ scan_addresses probe retry_count config ↔
          (addr, config) ∈ scan_addresses probe' retry_count config)) := by
  refine ⟨?_, ?_, ?_, mem_scan_addresses probe retry_count config, ?_⟩
  · intro addr
    simpa using try_address_from_le (probe addr) retry_count 0
  · intro addr i t hi hp hprev
    unfold try_address
    simpa using try_address_from_first_success (probe addr) retry_count 0 i t hi
      (by simpa using hp) (by simpa using hprev)
  · rw [scan_addresses_map_fst]
    exact List.Pairwise.sublist (List.filter_sublist _) (by decide)
  · intro probe' addr h
    rw [mem_scan_addresses, mem_scan_addresses, h]

/-- Witness for C7: a probe oracle succeeding at attempt index 1 stops the
retry loop after exactly two probes. -/
theorem scan_retry_policy_witness :
    try_address (fun i => if i = 1 then ProbeOutcome.found 7 else .noReading) 3 =
      (true, 2) := by
  have h := (scan_retry_policy (fun _ i => if i = 1 then ProbeOutcome.found 7
      else .noReading) 3 sitrad_config).2.1 5 1 7 (by omega) (by simp)
    (by intro j hj u
        have hj0 : j = 0 := by omega
        subst hj0
        simp)
  simpa using h

end CONV32
